import Mathlib

/-!
Verification of the analytic core of the clinical-LLM consistency study
(`src/consistency_scorer.py` and `src/statistical_tests.py`).

Conventions of the embedding:
* A Python dict of style to extracted answer is modelled by the ordered list
  of its values (Python dicts iterate in insertion order, and the only dict
  operations the scorer uses are `values()` and `len`).  Where the insertion
  order matters it is the fixed prompt-style enumeration order, because
  `score_dataset` builds the dict by a comprehension over `PROMPT_STYLES`.
* Floating point arithmetic is idealised as exact rational arithmetic; the
  Python `round` builtin (round half to even) is modelled by `pyRound`.
* Python code that can raise is modelled with `Option` or `Except`
  (`none` / `error` standing for an uncaught exception).
-/

namespace ClinicalEval

/-- The fixed, ordered style enumeration from `consistency_scorer.py` line 20. -/
def PROMPT_STYLES : List String := ["original", "formal", "simplified", "roleplay", "direct"]

/-- Model of Python `Counter(l).most_common(1)[0][0]` restricted to a key
function `k` giving each element its count in the counted list.  `Counter`
keys appear in first-occurrence order and `most_common` sorts stably by
descending count, so the result is the element whose key value is maximal,
and among maximal ones the one occurring first in the list.  An earlier
element `a` beats a later best `b` exactly when `k b` is not strictly
greater. -/
def firstMaxBy (k : String → Nat) : List String → Option String
  | [] => none
  | a :: rest =>
    match firstMaxBy k rest with
    | none => some a
    | some b => if k b > k a then some b else some a

/-- `Counter(l).most_common(1)[0][0]` for a nonempty list `l`; the default
is never reached when `l` is nonempty. -/
def mostCommon1 (l : List String) : String :=
  (firstMaxBy (fun a => l.count a) l).getD "UNKNOWN"

/-- Translation of `consistency_score` (`consistency_scorer.py` lines 23-37):
filter out the UNKNOWN marker, return 0 on an empty remainder, otherwise the
count of filtered answers equal to the most common one divided by the number
of responses. -/
def consistency_score (responses : List String) : ℚ :=
  let answers := responses.filter (fun v => v ≠ "UNKNOWN")
  if answers.isEmpty then 0
  else (answers.count (mostCommon1 answers) : ℚ) / (responses.length : ℚ)

/-- Translation of `majority_answer` (`consistency_scorer.py` lines 40-45). -/
def majority_answer (responses : List String) : String :=
  let answers := responses.filter (fun v => v ≠ "UNKNOWN")
  if answers.isEmpty then "UNKNOWN"
  else mostCommon1 answers

/-- Translation of `unknown_rate` (`consistency_scorer.py` lines 48-51):
the Python body divides by `len(responses)` unconditionally, raising
`ZeroDivisionError` on an empty dict; the raise is modelled by `none`. -/
def unknown_rate (responses : List String) : Option ℚ :=
  if responses.isEmpty then none
  else some ((responses.count "UNKNOWN" : ℚ) / (responses.length : ℚ))

/-- The style-to-extracted-answer mapping of one raw item, as an association
list over the present styles (`item["responses"]`, keeping only the
`"extracted"` field, the only one the scorer reads). -/
abbrev StyleMap := List (String × String)

/-- The ordered value list of the dict comprehension in `score_dataset`
lines 68-72: visit `PROMPT_STYLES` in order and keep the extracted answer of
each style present in the item. -/
def buildResponses (resp : StyleMap) : List String :=
  PROMPT_STYLES.filterMap (fun s => resp.lookup s)

/-- Model of the Python builtin `round(x, n)` on exact rationals: round half
to even at `n` decimal digits.  (The Python original operates on binary
floats; the rationals reaching `round` in this program are exact small
fractions, idealised here as exact rational rounding.) -/
def roundHalfEven (x : ℚ) : ℤ :=
  let f : ℤ := ⌊x⌋
  if x - f < 1/2 then f
  else if 1/2 < x - f then f + 1
  else if Even f then f else f + 1

/-- Python `round(x, n)` for rationals. -/
def pyRound (x : ℚ) (n : ℕ) : ℚ :=
  (roundHalfEven (x * 10 ^ n) : ℚ) / (10 ^ n : ℚ)

/-- One raw inference item (`score_dataset` lines 66-77): identifier,
question text, the style-to-extracted-answer mapping of the present styles,
and the ground-truth answer. -/
structure RawItem where
  id : String
  question : String
  responses : StyleMap
  correct_answer : String

/-- One row of the scored table built in `score_dataset` lines 82-100. -/
structure ScoredRecord where
  id : String
  question : String
  correct_answer : String
  majority_answer : String
  is_accurate : Bool
  consistency_score : ℚ
  unknown_rate : ℚ
  dataset : String
  model : String
  ans_original : String
  ans_formal : String
  ans_simplified : String
  ans_roleplay : String
  ans_direct : String
  correct_original : Bool
  correct_formal : Bool
  correct_simplified : Bool
  correct_roleplay : Bool
  correct_direct : Bool
deriving DecidableEq, Repr

/-- `responses.get(style, "UNKNOWN")` of `score_dataset` line 96. -/
def ansFor (resp : StyleMap) (style : String) : String :=
  (resp.lookup style).getD "UNKNOWN"

/-- Row construction of `score_dataset` lines 74-100, given the unknown
rate already computed: build the ordered response list, compute majority
answer and consistency score, normalise the ground truth with strip and
upper, and fill the row, rounding the two rates to three decimals as
lines 88-89 do. -/
def scoreRow (dataset model : String) (item : RawItem) (unk : ℚ) : ScoredRecord :=
  let responses := buildResponses item.responses
  let maj := majority_answer responses
  let cons := consistency_score responses
  let correct := item.correct_answer.trim.toUpper
  { id := item.id
    question := item.question.take 80
    correct_answer := correct
    majority_answer := maj
    is_accurate := maj.toUpper == correct
    consistency_score := pyRound cons 3
    unknown_rate := pyRound unk 3
    dataset := dataset
    model := model
    ans_original := ansFor item.responses "original"
    ans_formal := ansFor item.responses "formal"
    ans_simplified := ansFor item.responses "simplified"
    ans_roleplay := ansFor item.responses "roleplay"
    ans_direct := ansFor item.responses "direct"
    correct_original := (ansFor item.responses "original").toUpper == correct
    correct_formal := (ansFor item.responses "formal").toUpper == correct
    correct_simplified := (ansFor item.responses "simplified").toUpper == correct
    correct_roleplay := (ansFor item.responses "roleplay").toUpper == correct
    correct_direct := (ansFor item.responses "direct").toUpper == correct }

/-- The loop body of `score_dataset` lines 66-100 for one item, split into
the fallible `unknown_rate` call (line 76, whose `ZeroDivisionError` on an
item with no present styles is modelled by `none`) and the pure row
construction `scoreRow`. -/
def scoreItem (dataset model : String) (item : RawItem) : Option ScoredRecord :=
  match unknown_rate (buildResponses item.responses) with
  | none => none
  | some unk => some (scoreRow dataset model item unk)

/-- The record-building loop of `score_dataset` lines 64-102: one row per
item, aborting the whole run (`none`) if any item raises. -/
def score_dataset (dataset model : String) : List RawItem → Option (List ScoredRecord)
  | [] => some []
  | item :: rest =>
    match scoreItem dataset model item, score_dataset dataset model rest with
    | some r, some rs => some (r :: rs)
    | _, _ => none

/-- Mean of a rational column, as pandas computes it on a nonempty column. -/
def colMean (xs : List ℚ) : ℚ := xs.sum / (xs.length : ℚ)

/-- Summary row built by `summarize` (`consistency_scorer.py` lines 112-137).
The `std_consistency` field of the source (line 124) is a square root over
floats; no claim refers to it and it is omitted from the embedding. -/
structure DatasetSummary where
  dataset : String
  model : String
  n_questions : ℕ
  mean_consistency : ℚ
  fully_consistent : ℕ
  fully_consistent_pct : ℚ
  overall_accuracy : ℚ
  unknown_rate : ℚ
  acc_original : ℚ
  acc_formal : ℚ
  acc_simplified : ℚ
  acc_roleplay : ℚ
  acc_direct : ℚ
deriving DecidableEq, Repr

/-- Fraction of rows satisfying a boolean column, times 100 (pandas
`df[col].mean() * 100` on a boolean column). -/
def pctTrue (df : List ScoredRecord) (col : ScoredRecord → Bool) : ℚ :=
  ((df.countP col : ℚ) / (df.length : ℚ)) * 100

/-- Translation of `summarize` (`consistency_scorer.py` lines 112-137).  A
DataFrame built from an empty record list has no columns, so the first
column access `df["consistency_score"]` raises `KeyError`; this is modelled
by the `error` branch.  On a nonempty frame each quantity is the rounded
aggregate of the corresponding column. -/
def summarize (df : List ScoredRecord) (dataset model : String) :
    Except String DatasetSummary :=
  if df.isEmpty then .error "KeyError: consistency_score"
  else .ok
    { dataset := dataset
      model := model
      n_questions := df.length
      mean_consistency := pyRound (colMean (df.map (fun r => r.consistency_score))) 3
      fully_consistent := df.countP (fun r => r.consistency_score == 1)
      fully_consistent_pct := pyRound (pctTrue df (fun r => r.consistency_score == 1)) 1
      overall_accuracy := pyRound (pctTrue df (fun r => r.is_accurate)) 1
      unknown_rate := pyRound (colMean (df.map (fun r => r.unknown_rate)) * 100) 1
      acc_original := pyRound (pctTrue df (fun r => r.correct_original)) 1
      acc_formal := pyRound (pctTrue df (fun r => r.correct_formal)) 1
      acc_simplified := pyRound (pctTrue df (fun r => r.correct_simplified)) 1
      acc_roleplay := pyRound (pctTrue df (fun r => r.correct_roleplay)) 1
      acc_direct := pyRound (pctTrue df (fun r => r.correct_direct)) 1 }

/-! ### Embedding of `statistical_tests.py` -/

/-- Modelled from the spec: the library routine `scipy.stats.wilcoxon`
called at `statistical_tests.py` line 41 is not part of this repository.
Per the spec of the paired rank test, it fails with a defined error when
the two arrays are identical (all differences zero, so the rank test is
undefined); otherwise it returns a statistic and p-value, here abstracted
by the parameter `compute`. -/
def wilcoxon (compute : List ℚ → List ℚ → ℚ × ℚ) (s1 s2 : List ℚ) :
    Except String (ℚ × ℚ) :=
  if s1 = s2 then .error "wilcoxon undefined: x - y is zero for all elements"
  else .ok (compute s1 s2)

/-- `np.sum((a1 == 1) & (a2 == 0))` of `statistical_tests.py` line 61:
the number of aligned positions where the first flag holds and the second
does not. -/
def m1_only (a1 a2 : List Bool) : ℕ :=
  ((a1.zip a2).filter (fun p => p.1 && !p.2)).length

/-- The McNemar accuracy comparison of `statistical_tests.py` lines 61-69,
with the chi-square survival function (a transcendental float routine from
scipy) abstracted as the parameter `sf`.  Returns the pair of statistic and
p-value; the zero-discordant branch returns the constants 0 and 1 without
touching the formula. -/
def mcnemar (sf : ℚ → ℚ) (a1 a2 : List Bool) : ℚ × ℚ :=
  let mo1 : ℤ := m1_only a1 a2
  let mo2 : ℤ := m1_only a2 a1
  if mo1 + mo2 > 0 then
    let chi2 : ℚ := (((|mo1 - mo2| - 1) ^ 2 : ℤ) : ℚ) / ((mo1 + mo2 : ℤ) : ℚ)
    (chi2, sf chi2)
  else (0, 1)

/-- The significance label of `statistical_tests.py` lines 42-43 (the
consistency comparison). -/
def sigLabelConsistency (p : ℚ) : String :=
  if p < 0.001 then "***" else if p < 0.01 then "**" else
  if p < 0.05 then "*" else "ns"

/-- The significance label of `statistical_tests.py` lines 71-72 (the
accuracy comparison); textually the same expression as lines 42-43. -/
def sigLabelAccuracy (p : ℚ) : String :=
  if p < 0.001 then "***" else if p < 0.01 then "**" else
  if p < 0.05 then "*" else "ns"

/-- The per-pair body of `run_tests` (`statistical_tests.py` lines 38-83)
for one model pair: the Wilcoxon comparison of the `consistency_score`
columns (line 41, an uncaught library exception propagates out), then the
McNemar comparison of the `is_accurate` columns.  No question-identifier
column is ever consulted.  Returns both labelled results. -/
def comparePair (compute : List ℚ → List ℚ → ℚ × ℚ) (sf : ℚ → ℚ)
    (df1 df2 : List ScoredRecord) :
    Except String ((ℚ × ℚ × String) × (ℚ × ℚ × String)) :=
  match wilcoxon compute (df1.map (fun r => r.consistency_score))
      (df2.map (fun r => r.consistency_score)) with
  | .error e => .error e
  | .ok (w, p) =>
    let mc := mcnemar sf (df1.map (fun r => r.is_accurate))
      (df2.map (fun r => r.is_accurate))
    .ok ((w, p, sigLabelConsistency p), (mc.1, mc.2, sigLabelAccuracy mc.2))

/-- The continuity-corrected chi-square statistic of the spec (section 4.3):
the square of the absolute discordant-count difference minus one, divided by
the number of discordant pairs. -/
def specChiSquare (a1 a2 : List Bool) : ℚ :=
  ((((|(m1_only a1 a2 : ℤ) - (m1_only a2 a1 : ℤ)| - 1) ^ 2 : ℤ)) : ℚ) /
    ((((m1_only a1 a2 : ℤ) + (m1_only a2 a1 : ℤ)) : ℤ) : ℚ)

/-- A scored row carrying only the columns `run_tests` reads, everything
else blank; convenient for concrete instances. -/
def mkRow (id : String) (score : ℚ) (acc : Bool) : ScoredRecord :=
  { id := id
    question := ""
    correct_answer := ""
    majority_answer := ""
    is_accurate := acc
    consistency_score := score
    unknown_rate := 0
    dataset := ""
    model := ""
    ans_original := ""
    ans_formal := ""
    ans_simplified := ""
    ans_roleplay := ""
    ans_direct := ""
    correct_original := false
    correct_formal := false
    correct_simplified := false
    correct_roleplay := false
    correct_direct := false }

/-- Accuracy flags with five discordant positions in favour of the first
model (the spec example with aOnly five and bOnly one). -/
def mcnemarExA : List Bool := [true, true, true, true, true, false]

/-- The matching second column of accuracy flags for the spec example. -/
def mcnemarExB : List Bool := [false, false, false, false, false, true]

/-- The worked AnswerSet example of the spec: original A, formal B,
simplified B, roleplay B, direct A. -/
def respEx : StyleMap :=
  [("original", "A"), ("formal", "B"), ("simplified", "B"),
   ("roleplay", "B"), ("direct", "A")]

/-- A raw item whose agreement score is two thirds, not representable in
three decimals: three present styles answering A, B, B. -/
def cexItem : RawItem :=
  { id := "q1", question := "q",
    responses := [("original", "A"), ("formal", "B"), ("simplified", "B")],
    correct_answer := "B" }

/-- The scored table produced from `cexItem`. -/
def cexRecs : List ScoredRecord :=
  (score_dataset "medqa" "phi3_mini" [cexItem]).getD []

/-- The summary row produced from `cexRecs`. -/
def cexSummary : DatasetSummary :=
  match summarize cexRecs "medqa" "phi3_mini" with
  | .ok s => s
  | .error _ => ⟨"", "", 0, 0, 0, 0, 0, 0, 0, 0, 0, 0, 0⟩

/-- A one-item input whose agreement score is exactly one (all five styles
agree); used to instantiate the round-trip theorem concretely. -/
def itemsW : List RawItem :=
  [{ id := "q1", question := "q",
     responses := [("original", "A"), ("formal", "A"), ("simplified", "A"),
                   ("roleplay", "A"), ("direct", "A")],
     correct_answer := "A" }]

/-- The scored table produced from `itemsW`. -/
def recsW : List ScoredRecord :=
  (score_dataset "medqa" "phi3_mini" itemsW).getD []

/-! ### Properties of the first-max selection -/

theorem firstMaxBy_eq_none (k : String → Nat) (l : List String) :
    firstMaxBy k l = none ↔ l = [] := by
  cases l with
  | nil => simp [firstMaxBy]
  | cons a rest =>
    simp only [firstMaxBy]
    cases h : firstMaxBy k rest with
    | none => simp
    | some b =>
      constructor
      · intro hc
        by_cases hgt : k b > k a <;> simp [hgt] at hc
      · intro hc; exact absurd hc (List.cons_ne_nil a rest)

theorem firstMaxBy_mem (k : String → Nat) :
    ∀ (l : List String) (m : String), firstMaxBy k l = some m → m ∈ l := by
  intro l
  induction l with
  | nil => intro m h; simp [firstMaxBy] at h
  | cons x rest ih =>
    intro m h
    simp only [firstMaxBy] at h
    cases hr : firstMaxBy k rest with
    | none =>
      rw [hr] at h; simp at h; subst h
      exact List.mem_cons_self x rest
    | some b =>
      rw [hr] at h
      by_cases hgt : k b > k x
      · simp [hgt] at h; subst h
        exact List.mem_cons_of_mem x (ih _ hr)
      · simp [hgt] at h; subst h
        exact List.mem_cons_self x rest

theorem firstMaxBy_max (k : String → Nat) :
    ∀ (l : List String) (m : String), firstMaxBy k l = some m → ∀ a ∈ l, k a ≤ k m := by
  intro l
  induction l with
  | nil => intro m h; simp [firstMaxBy] at h
  | cons x rest ih =>
    intro m h a ha
    simp only [firstMaxBy] at h
    cases hr : firstMaxBy k rest with
    | none =>
      rw [hr] at h; simp at h; subst h
      have hnil : rest = [] := (firstMaxBy_eq_none k rest).mp hr
      subst hnil
      simp at ha; subst ha; exact le_refl _
    | some b =>
      rw [hr] at h
      by_cases hgt : k b > k x
      · simp [hgt] at h; subst h
        rcases List.mem_cons.mp ha with hax | har
        · subst hax; exact le_of_lt hgt
        · exact ih _ hr a har
      · simp [hgt] at h; subst h
        rcases List.mem_cons.mp ha with hax | har
        · subst hax; exact le_refl _
        · exact le_trans (ih _ hr a har) (not_lt.mp hgt)

theorem firstMaxBy_first (k : String → Nat) :
    ∀ (l : List String) (m : String), firstMaxBy k l = some m →
      ∀ a ∈ l, k a = k m → l.indexOf m ≤ l.indexOf a := by
  intro l
  induction l with
  | nil => intro m h; simp [firstMaxBy] at h
  | cons x rest ih =>
    intro m h a ha hka
    simp only [firstMaxBy] at h
    cases hr : firstMaxBy k rest with
    | none =>
      rw [hr] at h; simp at h; subst h
      simp [List.indexOf_cons_self]
    | some b =>
      rw [hr] at h
      by_cases hgt : k b > k x
      · simp [hgt] at h; subst h
        have hbx : b ≠ x := by
          intro he; rw [he] at hgt; exact lt_irrefl _ hgt
        have hax : a ≠ x := by
          intro he; rw [he] at hka; rw [hka] at hgt; exact lt_irrefl _ hgt
        have har : a ∈ rest := by
          rcases List.mem_cons.mp ha with h1 | h2
          · exact absurd h1 hax
          · exact h2
        have hstep := ih _ hr a har hka
        rw [List.indexOf_cons_ne rest (Ne.symm hbx), List.indexOf_cons_ne rest (Ne.symm hax)]
        exact Nat.succ_le_succ hstep
      · simp [hgt] at h; subst h
        simp [List.indexOf_cons_self]


/-! ### Shared evaluation facts -/

theorem mostCommon1_spec (l : List String) (h : l ≠ []) :
    mostCommon1 l ∈ l ∧
    (∀ a ∈ l, l.count a ≤ l.count (mostCommon1 l)) ∧
    (∀ a ∈ l, l.count a = l.count (mostCommon1 l) →
      l.indexOf (mostCommon1 l) ≤ l.indexOf a) := by
  obtain ⟨m, hm⟩ : ∃ m, firstMaxBy (fun a => l.count a) l = some m := by
    cases hfm : firstMaxBy (fun a => l.count a) l with
    | none => exact absurd ((firstMaxBy_eq_none _ _).mp hfm) h
    | some m => exact ⟨m, rfl⟩
  have hmc : mostCommon1 l = m := by unfold mostCommon1; rw [hm]; rfl
  rw [hmc]
  exact ⟨firstMaxBy_mem _ _ _ hm, firstMaxBy_max _ _ _ hm, firstMaxBy_first _ _ _ hm⟩

theorem consistency_score_def (responses : List String) :
    consistency_score responses =
      if (responses.filter (fun v => v ≠ "UNKNOWN")).isEmpty then 0
      else ((responses.filter (fun v => v ≠ "UNKNOWN")).count
          (mostCommon1 (responses.filter (fun v => v ≠ "UNKNOWN"))) : ℚ) /
          (responses.length : ℚ) := rfl

theorem majority_answer_def (responses : List String) :
    majority_answer responses =
      if (responses.filter (fun v => v ≠ "UNKNOWN")).isEmpty then "UNKNOWN"
      else mostCommon1 (responses.filter (fun v => v ≠ "UNKNOWN")) := rfl

/-! ### Claim theorems -/

/-- C1: the agreement score is 0 when the set of present non-UNKNOWN entries
is empty, and otherwise equals the count of valid entries matching the
majority answer divided by the count of all present entries (so present
UNKNOWN entries are counted in the denominator, while styles entirely absent
from the response list are not counted at all). -/
theorem agreement_score_formula (responses : List String) :
    consistency_score responses =
      if responses.filter (fun v => v ≠ "UNKNOWN") = [] then 0
      else ((responses.filter (fun v => v ≠ "UNKNOWN")).count
          (majority_answer responses) : ℚ) / (responses.length : ℚ) := by
  by_cases h : responses.filter (fun v => v ≠ "UNKNOWN") = []
  · rw [if_pos h, consistency_score_def, h]
    rfl
  · have hne : (responses.filter (fun v => v ≠ "UNKNOWN")).isEmpty = false :=
      List.isEmpty_eq_false.mpr h
    rw [if_neg h, consistency_score_def, majority_answer_def, hne]
    simp only [Bool.false_eq_true, if_false]

/-- C10: the agreement score is 0 exactly when no present entry carries a
valid answer; with at least one valid answer present, the score is at least
one over the number of present entries, hence strictly positive. -/
theorem agreement_score_zero_iff (responses : List String) :
    (consistency_score responses = 0 ↔
      responses.filter (fun v => v ≠ "UNKNOWN") = []) ∧
    (responses.filter (fun v => v ≠ "UNKNOWN") ≠ [] →
      (1 : ℚ) / (responses.length : ℚ) ≤ consistency_score responses) := by
  by_cases h : responses.filter (fun v => v ≠ "UNKNOWN") = []
  · have hz : consistency_score responses = 0 := by
      rw [consistency_score_def, h]; rfl
    exact ⟨⟨fun _ => h, fun _ => hz⟩, fun hc => absurd h hc⟩
  · have hne : (responses.filter (fun v => v ≠ "UNKNOWN")).isEmpty = false :=
      List.isEmpty_eq_false.mpr h
    obtain ⟨hmem, -, -⟩ := mostCommon1_spec _ h
    have hcount : 1 ≤ (responses.filter (fun v => v ≠ "UNKNOWN")).count
        (mostCommon1 (responses.filter (fun v => v ≠ "UNKNOWN"))) :=
      List.one_le_count_iff.mpr hmem
    have hlen : 0 < responses.length := by
      rcases responses with _ | ⟨x, xs⟩
      · simp at h
      · simp
    have hlenq : (0 : ℚ) < (responses.length : ℚ) := by exact_mod_cast hlen
    have hcq : (1 : ℚ) ≤ ((responses.filter (fun v => v ≠ "UNKNOWN")).count
        (mostCommon1 (responses.filter (fun v => v ≠ "UNKNOWN"))) : ℚ) := by
      exact_mod_cast hcount
    have hscore : consistency_score responses =
        ((responses.filter (fun v => v ≠ "UNKNOWN")).count
          (mostCommon1 (responses.filter (fun v => v ≠ "UNKNOWN"))) : ℚ) /
          (responses.length : ℚ) := by
      rw [consistency_score_def, hne]
      simp only [Bool.false_eq_true, if_false]
    have hpos : (0 : ℚ) < consistency_score responses := by
      rw [hscore]
      exact div_pos (lt_of_lt_of_le one_pos hcq) hlenq
    refine ⟨⟨fun h0 => absurd h0 (ne_of_gt hpos), fun hf => absurd hf h⟩, fun _ => ?_⟩
    rw [hscore]
    exact (div_le_div_iff_of_pos_right hlenq).mpr hcq

/-- C10 witness: a one-entry response list with a valid answer has agreement
score at least one over its length. -/
theorem agreement_score_zero_iff_witness :
    (1 : ℚ) / ((["A"] : List String).length : ℚ) ≤ consistency_score ["A"] :=
  (agreement_score_zero_iff ["A"]).2 (by decide)

/-- C2: on the response list built in style enumeration order, the majority
answer is a present non-UNKNOWN token of maximal occurrence count, ties are
broken in favour of the token encountered first in the enumeration order,
the result is UNKNOWN when no valid entry is present, and the computation is
deterministic (a function of the built response list). -/
theorem majority_answer_first_max (resp : StyleMap) :
    (((buildResponses resp).filter (fun v => v ≠ "UNKNOWN")) = [] →
      majority_answer (buildResponses resp) = "UNKNOWN") ∧
    (((buildResponses resp).filter (fun v => v ≠ "UNKNOWN")) ≠ [] →
      (majority_answer (buildResponses resp) ∈
        (buildResponses resp).filter (fun v => v ≠ "UNKNOWN")) ∧
      (∀ a ∈ (buildResponses resp).filter (fun v => v ≠ "UNKNOWN"),
        ((buildResponses resp).filter (fun v => v ≠ "UNKNOWN")).count a ≤
          ((buildResponses resp).filter (fun v => v ≠ "UNKNOWN")).count
            (majority_answer (buildResponses resp))) ∧
      (∀ a ∈ (buildResponses resp).filter (fun v => v ≠ "UNKNOWN"),
        ((buildResponses resp).filter (fun v => v ≠ "UNKNOWN")).count a =
          ((buildResponses resp).filter (fun v => v ≠ "UNKNOWN")).count
            (majority_answer (buildResponses resp)) →
        ((buildResponses resp).filter (fun v => v ≠ "UNKNOWN")).indexOf
            (majority_answer (buildResponses resp)) ≤
          ((buildResponses resp).filter (fun v => v ≠ "UNKNOWN")).indexOf a)) ∧
    (∀ resp2 : StyleMap, buildResponses resp2 = buildResponses resp →
      majority_answer (buildResponses resp2) =
        majority_answer (buildResponses resp)) := by
  refine ⟨?_, ?_, ?_⟩
  · intro h
    rw [majority_answer_def, h]
    rfl
  · intro h
    have hne : ((buildResponses resp).filter (fun v => v ≠ "UNKNOWN")).isEmpty = false :=
      List.isEmpty_eq_false.mpr h
    have hmaj : majority_answer (buildResponses resp) =
        mostCommon1 ((buildResponses resp).filter (fun v => v ≠ "UNKNOWN")) := by
      rw [majority_answer_def, hne]
      simp only [Bool.false_eq_true, if_false]
    rw [hmaj]
    exact mostCommon1_spec _ h
  · intro resp2 he
    rw [he]

/-- C2 witness: on the worked example of the spec the majority answer is a
member of the valid entries of the set. -/
theorem majority_answer_first_max_witness :
    majority_answer (buildResponses respEx) ∈
      (buildResponses respEx).filter (fun v => v ≠ "UNKNOWN") :=
  ((majority_answer_first_max respEx).2.1 (by decide)).1

theorem unknown_rate_def (responses : List String) :
    unknown_rate responses =
      if responses.isEmpty then none
      else some ((responses.count "UNKNOWN" : ℚ) / (responses.length : ℚ)) := rfl

/-- C3 counterexample: an AnswerSet with zero present style entries makes
the missing-rate computation divide by zero (an uncaught raise, modelled by
none), and the scoring run over such an item aborts instead of completing. -/
theorem scoring_no_styles_raises :
    unknown_rate (buildResponses []) = none ∧
    score_dataset "medqa" "phi3_mini"
      [{ id := "q1", question := "q", responses := [], correct_answer := "B" }] = none :=
  ⟨rfl, rfl⟩

/-- C3 amended: the majority-answer and agreement-score computations are
total, and scoring an item completes without raising exactly when the item
has at least one present style entry; the missing-rate division is the only
raise site. -/
theorem scoring_completes_iff (dataset model : String) (item : RawItem) :
    ((unknown_rate (buildResponses item.responses)).isSome ↔
      buildResponses item.responses ≠ []) ∧
    ((scoreItem dataset model item).isSome ↔
      buildResponses item.responses ≠ []) := by
  by_cases h : buildResponses item.responses = []
  · have hu : unknown_rate (buildResponses item.responses) = none := by
      rw [unknown_rate_def, h]; rfl
    have hsi : scoreItem dataset model item = none := by
      rw [scoreItem, hu]
    rw [hu, hsi]
    simp [h]
  · have hne : (buildResponses item.responses).isEmpty = false :=
      List.isEmpty_eq_false.mpr h
    have hu : unknown_rate (buildResponses item.responses) =
        some (((buildResponses item.responses).count "UNKNOWN" : ℚ) /
          ((buildResponses item.responses).length : ℚ)) := by
      rw [unknown_rate_def, hne]
      simp only [Bool.false_eq_true, if_false]
    have hsi : scoreItem dataset model item =
        some (scoreRow dataset model item
          (((buildResponses item.responses).count "UNKNOWN" : ℚ) /
            ((buildResponses item.responses).length : ℚ))) := by
      rw [scoreItem, hu]
    rw [hu, hsi]
    simp [h]

/-- C8: summarising the empty collection of scored questions fails with the
missing-column error (the frame built from an empty record list has no
columns, so the first column access raises), rather than returning any
summary row. -/
theorem summarize_empty_fails (dataset model : String) :
    summarize [] dataset model = .error "KeyError: consistency_score" := rfl

/-- C4: with at least one discordant pair, the accuracy comparison returns
the continuity-corrected statistic and the abstract chi-square survival
probability evaluated at it; with zero discordant pairs it returns the
constants 0 and 1 directly, never evaluating the dividing formula. -/
theorem mcnemar_formula (sf : ℚ → ℚ) (a1 a2 : List Bool) :
    (0 < m1_only a1 a2 + m1_only a2 a1 →
      mcnemar sf a1 a2 = (specChiSquare a1 a2, sf (specChiSquare a1 a2))) ∧
    (m1_only a1 a2 + m1_only a2 a1 = 0 → mcnemar sf a1 a2 = (0, 1)) := by
  constructor
  · intro h
    have hz : ((m1_only a1 a2 : ℤ)) + ((m1_only a2 a1 : ℤ)) > 0 := by
      exact_mod_cast h
    simp only [mcnemar, specChiSquare]
    rw [if_pos hz]
  · intro h
    have hz : ¬ (((m1_only a1 a2 : ℤ)) + ((m1_only a2 a1 : ℤ)) > 0) := by omega
    simp only [mcnemar]
    rw [if_neg hz]

/-- C4 witness: the spec example with five and one discordant pairs yields
the statistic three halves and hands exactly that statistic to the survival
function. -/
theorem mcnemar_formula_witness :
    mcnemar (fun _ => (1 : ℚ) / 5) mcnemarExA mcnemarExB = (3 / 2, 1 / 5) := by
  have h := (mcnemar_formula (fun _ => (1 : ℚ) / 5) mcnemarExA mcnemarExB).1 (by decide)
  rw [h]
  decide!

/-- C5: both test branches compute the same significance tier, by strict
less-than comparisons evaluated in descending strictness order, so that a
p-value of exactly one thousandth lands in the ** tier. -/
theorem sig_tier_spec (p : ℚ) :
    sigLabelConsistency p = sigLabelAccuracy p ∧
    (p < 0.001 → sigLabelConsistency p = "***") ∧
    (0.001 ≤ p → p < 0.01 → sigLabelConsistency p = "**") ∧
    (0.01 ≤ p → p < 0.05 → sigLabelConsistency p = "*") ∧
    (0.05 ≤ p → sigLabelConsistency p = "ns") ∧
    sigLabelConsistency (1 / 1000) = "**" := by
  refine ⟨rfl, ?_, ?_, ?_, ?_, by decide!⟩
  · intro h1
    rw [sigLabelConsistency, if_pos h1]
  · intro h1 h2
    rw [sigLabelConsistency, if_neg (not_lt.mpr h1), if_pos h2]
  · intro h1 h2
    rw [sigLabelConsistency, if_neg (not_lt.mpr (by linarith : (0.001 : ℚ) ≤ p)),
      if_neg (not_lt.mpr h1), if_pos h2]
  · intro h1
    rw [sigLabelConsistency, if_neg (not_lt.mpr (by linarith : (0.001 : ℚ) ≤ p)),
      if_neg (not_lt.mpr (by linarith : (0.01 : ℚ) ≤ p)),
      if_neg (not_lt.mpr h1)]

/-- C5 witness: the spec boundary example, a p-value just below the five
percent threshold receives one star. -/
theorem sig_tier_spec_witness : sigLabelConsistency (49 / 1000) = "*" :=
  (sig_tier_spec (49 / 1000)).2.2.2.1 (by norm_num) (by norm_num)

/-- C6: when the two aligned agreement-score columns are identical, the
paired rank comparison fails with the zero-difference error, which the body
of run_tests does not catch, so the error surfaces to the caller instead of
any statistic being produced. -/
theorem rank_test_identical_fails (compute : List ℚ → List ℚ → ℚ × ℚ)
    (sf : ℚ → ℚ) (df1 df2 : List ScoredRecord)
    (h : df1.map (fun r => r.consistency_score) =
      df2.map (fun r => r.consistency_score)) :
    comparePair compute sf df1 df2 =
      .error "wilcoxon undefined: x - y is zero for all elements" := by
  rw [comparePair, wilcoxon, if_pos h]

/-- C6 witness: comparing a collection of scored rows against itself fails
with the zero-difference error. -/
theorem rank_test_identical_fails_witness :
    comparePair (fun _ _ => ((0 : ℚ), (0 : ℚ))) (fun _ => 1)
      [mkRow "q1" (1 / 2) true] [mkRow "q1" (1 / 2) true] =
      .error "wilcoxon undefined: x - y is zero for all elements" :=
  rank_test_identical_fails _ _ _ _ rfl

/-- C7 counterexample: two equal-length scored collections whose question
identifier sequences differ are compared without any error; the code
produces ordinary results from the misaligned data. -/
theorem misaligned_ids_not_rejected :
    ([mkRow "q1" (6 / 10) true, mkRow "q2" (8 / 10) false].map (fun r => r.id) ≠
      [mkRow "q2" (4 / 10) true, mkRow "q1" (2 / 10) false].map (fun r => r.id)) ∧
    (comparePair (fun _ _ => ((0 : ℚ), (0 : ℚ))) (fun _ => 1)
        [mkRow "q1" (6 / 10) true, mkRow "q2" (8 / 10) false]
        [mkRow "q2" (4 / 10) true, mkRow "q1" (2 / 10) false]).toOption =
      some ((0, 0, "***"), (0, 1, "ns")) := by
  constructor
  · decide
  · decide!

/-- C7 amended: run_tests never consults the question-identifier column;
each comparison is computed purely positionally from the score and accuracy
columns, so relabelling the identifiers of either collection leaves every
result unchanged, and misaligned identifiers are not detected. -/
theorem comparePair_ignores_ids (compute : List ℚ → List ℚ → ℚ × ℚ)
    (sf : ℚ → ℚ) (df1 df2 : List ScoredRecord) (f g : String → String) :
    comparePair compute sf
        (df1.map (fun r => { r with id := f r.id }))
        (df2.map (fun r => { r with id := g r.id })) =
      comparePair compute sf df1 df2 := by
  simp only [comparePair, List.map_map]
  rfl

theorem score_dataset_columns (dataset model : String) :
    ∀ (items : List RawItem) (recs : List ScoredRecord),
      score_dataset dataset model items = some recs →
      recs.map (fun r => r.consistency_score) =
        items.map (fun it =>
          pyRound (consistency_score (buildResponses it.responses)) 3) ∧
      recs.map (fun r => r.is_accurate) =
        items.map (fun it =>
          (majority_answer (buildResponses it.responses)).toUpper ==
            it.correct_answer.trim.toUpper) ∧
      recs.length = items.length := by
  intro items
  induction items with
  | nil =>
    intro recs h
    simp only [score_dataset, Option.some.injEq] at h
    subst h
    simp
  | cons item rest ih =>
    intro recs h
    simp only [score_dataset] at h
    cases hsi : scoreItem dataset model item with
    | none => rw [hsi] at h; simp at h
    | some r =>
      rw [hsi] at h
      cases hrd : score_dataset dataset model rest with
      | none => rw [hrd] at h; simp at h
      | some rs =>
        rw [hrd] at h
        simp only [Option.some.injEq] at h
        subst h
        obtain ⟨h1, h2, h3⟩ := ih rs hrd
        obtain ⟨unk, hr⟩ : ∃ unk, r = scoreRow dataset model item unk := by
          rw [scoreItem] at hsi
          cases hu : unknown_rate (buildResponses item.responses) with
          | none => rw [hu] at hsi; simp at hsi
          | some unk =>
            rw [hu] at hsi
            simp only [Option.some.injEq] at hsi
            exact ⟨unk, hsi.symm⟩
        have hc : r.consistency_score =
            pyRound (consistency_score (buildResponses item.responses)) 3 := by
          rw [hr]; rfl
        have ha : r.is_accurate =
            ((majority_answer (buildResponses item.responses)).toUpper ==
              item.correct_answer.trim.toUpper) := by
          rw [hr]; rfl
        refine ⟨?_, ?_, ?_⟩
        · rw [List.map_cons, List.map_cons, h1, hc]
        · rw [List.map_cons, List.map_cons, h2, ha]
        · simp [h3]

theorem summarize_def (df : List ScoredRecord) (dataset model : String)
    (h : df.isEmpty = false) :
    summarize df dataset model = .ok
      { dataset := dataset
        model := model
        n_questions := df.length
        mean_consistency :=
          pyRound (colMean (df.map (fun r => r.consistency_score))) 3
        fully_consistent := df.countP (fun r => r.consistency_score == 1)
        fully_consistent_pct :=
          pyRound (pctTrue df (fun r => r.consistency_score == 1)) 1
        overall_accuracy := pyRound (pctTrue df (fun r => r.is_accurate)) 1
        unknown_rate :=
          pyRound (colMean (df.map (fun r => r.unknown_rate)) * 100) 1
        acc_original := pyRound (pctTrue df (fun r => r.correct_original)) 1
        acc_formal := pyRound (pctTrue df (fun r => r.correct_formal)) 1
        acc_simplified := pyRound (pctTrue df (fun r => r.correct_simplified)) 1
        acc_roleplay := pyRound (pctTrue df (fun r => r.correct_roleplay)) 1
        acc_direct := pyRound (pctTrue df (fun r => r.correct_direct)) 1 } := by
  rw [summarize, h]
  simp only [Bool.false_eq_true, if_false]

/-- C9 counterexample: for a single AnswerSet with three present styles
answering A, B, B, the raw agreement score is two thirds, but the summary
reports a mean agreement of 667 thousandths: the stored per-question score
is rounded to three decimals before aggregation, so the summary does not
reproduce the direct recomputation from the raw scores exactly. -/
theorem summary_roundtrip_not_exact :
    score_dataset "medqa" "phi3_mini" [cexItem] = some cexRecs ∧
    (summarize cexRecs "medqa" "phi3_mini").toOption = some cexSummary ∧
    cexSummary.mean_consistency = 667 / 1000 ∧
    colMean ([cexItem].map (fun it =>
      consistency_score (buildResponses it.responses))) = 2 / 3 ∧
    (667 / 1000 : ℚ) ≠ 2 / 3 := by
  refine ⟨by decide!, by decide!, by decide!, by decide!, by decide!⟩

/-- C9 amended: feeding the summary step the scored records produced from N
AnswerSets reproduces exactly the question count and the mean, perfect
agreement percentage and accuracy percentage recomputed from the per
question scores after the rounding the code applies (each stored score
rounded to three decimals, the mean rounded to three decimals and the
percentages to one decimal); without those rounding steps exact equality
fails. -/
theorem summary_roundtrip_rounded (dataset model : String)
    (items : List RawItem) (recs : List ScoredRecord)
    (hscd : score_dataset dataset model items = some recs) (hne : recs ≠ []) :
    ∃ s, summarize recs dataset model = .ok s ∧
      s.n_questions = items.length ∧
      s.mean_consistency =
        pyRound (colMean (items.map (fun it =>
          pyRound (consistency_score (buildResponses it.responses)) 3))) 3 ∧
      s.fully_consistent_pct =
        pyRound (((items.countP (fun it =>
            pyRound (consistency_score (buildResponses it.responses)) 3 == 1) : ℚ) /
          (items.length : ℚ)) * 100) 1 ∧
      s.overall_accuracy =
        pyRound (((items.countP (fun it =>
            (majority_answer (buildResponses it.responses)).toUpper ==
              it.correct_answer.trim.toUpper) : ℚ) /
          (items.length : ℚ)) * 100) 1 := by
  obtain ⟨h1, h2, h3⟩ := score_dataset_columns dataset model items recs hscd
  have hne2 : recs.isEmpty = false := List.isEmpty_eq_false.mpr hne
  have hcount1 : recs.countP (fun r => r.consistency_score == 1) =
      items.countP (fun it =>
        pyRound (consistency_score (buildResponses it.responses)) 3 == 1) := by
    have hmap := List.countP_map (fun x : ℚ => x == 1)
      (fun r : ScoredRecord => r.consistency_score) recs
    rw [h1] at hmap
    rw [List.countP_map] at hmap
    exact hmap.symm
  have hcount2 : recs.countP (fun r => r.is_accurate) =
      items.countP (fun it =>
        (majority_answer (buildResponses it.responses)).toUpper ==
          it.correct_answer.trim.toUpper) := by
    have hmap := List.countP_map (fun b : Bool => b)
      (fun r : ScoredRecord => r.is_accurate) recs
    rw [h2] at hmap
    rw [List.countP_map] at hmap
    exact hmap.symm
  refine ⟨_, summarize_def recs dataset model hne2, h3, ?_, ?_, ?_⟩
  · rw [h1]
  · show pyRound (pctTrue recs (fun r => r.consistency_score == 1)) 1 = _
    rw [pctTrue, hcount1, h3]
  · show pyRound (pctTrue recs (fun r => r.is_accurate)) 1 = _
    rw [pctTrue, hcount2, h3]

/-- C9 amended witness: a concrete one-item run whose stored score is
exactly one; the summary equals the rounded recomputation. -/
theorem summary_roundtrip_rounded_witness :
    ∃ s, summarize recsW "medqa" "phi3_mini" = .ok s ∧
      s.n_questions = itemsW.length ∧
      s.mean_consistency =
        pyRound (colMean (itemsW.map (fun it =>
          pyRound (consistency_score (buildResponses it.responses)) 3))) 3 ∧
      s.fully_consistent_pct =
        pyRound (((itemsW.countP (fun it =>
            pyRound (consistency_score (buildResponses it.responses)) 3 == 1) : ℚ) /
          (itemsW.length : ℚ)) * 100) 1 ∧
      s.overall_accuracy =
        pyRound (((itemsW.countP (fun it =>
            (majority_answer (buildResponses it.responses)).toUpper ==
              it.correct_answer.trim.toUpper) : ℚ) /
          (itemsW.length : ℚ)) * 100) 1 :=
  summary_roundtrip_rounded "medqa" "phi3_mini" itemsW recsW (by decide!) (by decide!)

end ClinicalEval
